import Mathlib

/-!
Shallow embedding of the hwp-mcp repository's pure control logic, together
with theorems checking the natural-language specification against it.

The embedded components are:
* `split_table_data_for_parallel` (src/src/tools/hwp_batch_processor.py),
* `validate_table_coordinates` (src/src/tools/hwp_utils.py),
* the optimized relative cell mover (absent from the tree; modelled from the
  specification's description, see its doc comment),
* the module-level name environment of src/src/tools/error_handling_guide.py,
* `HwpConfig.from_dict` / `ConfigManager.update` (src/src/tools/config.py),
* `find_and_replace` of the Word-Document server (src/cross_platform_mcp_server.py),
* the transaction context manager and `execute_batch` of
  `HwpBatchProcessor` (src/src/tools/hwp_batch_processor.py).

Python machine-level details that the claims do not touch (COM interop,
logging, timing) are abstracted; fallible paths are modelled with `Except`.
-/

namespace HwpMcp

/-! ## Parallel-chunk splitting (hwp_batch_processor.py, split_table_data_for_parallel)

Python:
```
total_rows = len(data)
chunk_size = (total_rows + num_workers - 1) // num_workers
chunks = []
for i in range(0, total_rows, chunk_size):
    chunks.append(data[i:i + chunk_size])
return chunks
```
`range(0, total_rows, chunk_size)` raises `ValueError: range() arg 3 must
not be zero` whenever `chunk_size == 0`, which happens exactly when
`total_rows == 0` (for `num_workers ≥ 1`); `num_workers == 0` raises
`ZeroDivisionError` at the `//`.  Slicing is embedded with an explicit
fuel argument (`fuel = total_rows` suffices since each step consumes at
least one row when `chunk_size ≥ 1`). -/

def sliceChunks {α : Type} (chunk_size : Nat) : Nat → List α → List (List α)
  | _, [] => []
  | 0, l => [l]
  | fuel + 1, x :: xs =>
      (x :: xs).take chunk_size :: sliceChunks chunk_size fuel ((x :: xs).drop chunk_size)

def split_table_data_for_parallel {α : Type} (data : List α) (num_workers : Nat) :
    Except String (List (List α)) :=
  if num_workers = 0 then
    Except.error "ZeroDivisionError: integer division or modulo by zero"
  else
    let total_rows := data.length
    let chunk_size := (total_rows + num_workers - 1) / num_workers
    if chunk_size = 0 then
      Except.error "ValueError: range() arg 3 must not be zero"
    else
      Except.ok (sliceChunks chunk_size total_rows data)

/-! ## Table-coordinate validation (hwp_utils.py, validate_table_coordinates)

Python raises `ValueError` when a coordinate is out of range and returns
`None` otherwise; the embedding returns `Except.error`/`Except.ok ()`. -/

def validate_table_coordinates (row col : Int) (max_rows : Int := 100)
    (max_cols : Int := 100) : Except String Unit :=
  if row < 1 ∨ row > max_rows then
    Except.error ("행 번호는 1과 " ++ toString max_rows ++ " 사이여야 합니다. 입력값: " ++ toString row)
  else if col < 1 ∨ col > max_cols then
    Except.error ("열 번호는 1과 " ++ toString max_cols ++ " 사이여야 합니다. 입력값: " ++ toString col)
  else
    Except.ok ()

/-! ## Optimized relative cell mover

Modelled from the spec: the shared-utilities module of the tree defines only
the absolute mover `move_to_table_cell`; the optimized relative mover
`move_to_table_cell_optimized` is imported and exercised by
src/src/__tests__/test_hwp_utils.py but its definition is missing from
src/src/tools/hwp_utils.py.  The definition below follows the
specification's description: issue zero commands if already at the target;
fall back to the absolute strategy (first-cell reset, then down/right
steps) if the known current position is the table's first cell; otherwise
issue single-step up/down/left/right commands proportional to the signed
deltas.  The returned list is the sequence of `hwp.Run` commands issued. -/

def move_to_table_cell_optimized (row col current_row current_col : Nat) :
    List String × Bool :=
  if row = current_row ∧ col = current_col then
    ([], true)
  else if current_row = 1 ∧ current_col = 1 then
    (["TableColBegin", "TableRowBegin"]
      ++ List.replicate (row - 1) "TableLowerCell"
      ++ List.replicate (col - 1) "TableRightCell", true)
  else
    let vertical :=
      if current_row ≤ row then List.replicate (row - current_row) "TableLowerCell"
      else List.replicate (current_row - row) "TableUpperCell"
    let horizontal :=
      if current_col ≤ col then List.replicate (col - current_col) "TableRightCell"
      else List.replicate (current_col - col) "TableLeftCell"
    (vertical ++ horizontal, true)

/-! ## Name environment of error_handling_guide.py

The module's only imports are
`from typing import Type, Callable, Any, Dict, Optional`,
`from functools import wraps`, `import logging`, and
`from .hwp_exceptions import *`; its module level binds `logger`,
`EXCEPTION_MAPPING` and the five functions defined before
`validate_table_coordinates`.  The default-argument expressions
`TABLE_MAX_ROWS` / `TABLE_MAX_COLS` in `validate_table_coordinates`'s
signature are evaluated while the module body executes, against exactly
this environment. -/

def hwp_exceptions_public_names : List String :=
  ["HwpError", "HwpConnectionError", "HwpNotRunningError", "HwpDocumentError",
   "HwpDocumentNotFoundError", "HwpDocumentAccessError", "HwpDocumentSaveError",
   "HwpTableError", "HwpTableNotFoundError", "HwpTableCellError", "HwpTableRangeError",
   "HwpImageError", "HwpImageNotFoundError", "HwpImageFormatError",
   "HwpPDFError", "HwpPDFExportError", "HwpTemplateError", "HwpTemplateNotFoundError",
   "HwpFieldError", "HwpFieldNotFoundError", "HwpParameterError",
   "HwpInvalidParameterError", "HwpOperationError", "HwpOperationNotAllowedError",
   "HwpBatchError", "HwpTransactionError", "HwpChunkProcessingError",
   "HwpTimeoutError", "handle_hwp_error"]

def error_handling_guide_module_names : List String :=
  ["Type", "Callable", "Any", "Dict", "Optional", "wraps", "logging"]
    ++ hwp_exceptions_public_names
    ++ ["logger", "EXCEPTION_MAPPING", "enhanced_error_handler",
        "extract_param_from_error", "validate_file_path"]

/-- Names referenced by the default-argument expressions of
`validate_table_coordinates` in error_handling_guide.py. -/
def error_handling_guide_default_refs : List String :=
  ["TABLE_MAX_ROWS", "TABLE_MAX_COLS"]

/-- Module import succeeds only when every name referenced by a
module-level expression resolves in the module's environment; otherwise
Python raises `NameError` at import time. -/
def error_handling_guide_import : Except String Unit :=
  if error_handling_guide_default_refs.all
      (fun n => error_handling_guide_module_names.contains n) then
    Except.ok ()
  else
    Except.error "NameError: name 'TABLE_MAX_ROWS' is not defined"

/-! ## Configuration subsystem (config.py)

`HwpConfig` is a Python dataclass; its fields are dynamically typed, so
the embedding stores every field as a `ConfigValue`.  Defaults mirror the
dataclass defaults (constants resolved from constants.py).
`HwpConfig.from_dict` is `cls(**data)`: a Python dataclass `__init__`
raises `TypeError` on any keyword that is not a declared field.
`ConfigManager.update` is a `setattr` loop guarded by `hasattr`. -/

inductive ConfigValue where
  | bool (b : Bool)
  | int (n : Int)
  | str (s : String)
  | strList (l : List String)
  | intMap (m : List (String × Int))
deriving DecidableEq

structure HwpConfig where
  auto_connect : ConfigValue := .bool true
  visible : ConfigValue := .bool true
  register_security_module : ConfigValue := .bool true
  security_module_path : ConfigValue :=
    .str "D:/hwp-mcp/security_module/FilePathCheckerModuleExample.dll"
  batch_size : ConfigValue := .int 100
  timeout : ConfigValue := .int 30
  retry_count : ConfigValue := .int 3
  retry_delay : ConfigValue := .int 1
  default_font : ConfigValue := .str "맑은 고딕"
  default_font_size : ConfigValue := .int 10
  default_paper_size : ConfigValue := .str "A4"
  default_orientation : ConfigValue := .str "portrait"
  default_margins : ConfigValue :=
    .intMap [("top", 20), ("bottom", 20), ("left", 30), ("right", 30),
             ("header", 15), ("footer", 15)]
  table_max_rows : ConfigValue := .int 100
  table_max_cols : ConfigValue := .int 100
  table_default_style : ConfigValue := .str "default"
  allowed_image_formats : ConfigValue :=
    .strList [".jpg", ".jpeg", ".png", ".gif", ".bmp", ".tif", ".tiff"]
  image_embed_mode : ConfigValue := .int 1
  image_max_width : ConfigValue := .int 0
  image_max_height : ConfigValue := .int 0
  pdf_default_quality : ConfigValue := .str "high"
  pdf_include_fonts : ConfigValue := .bool true
  pdf_include_comments : ConfigValue := .bool false
  log_level : ConfigValue := .str "INFO"
  log_file : ConfigValue := .str "hwp_mcp.log"
  log_max_size : ConfigValue := .int (10 * 1024 * 1024)
  log_backup_count : ConfigValue := .int 5
  debug_mode : ConfigValue := .bool false
  show_hwp_errors : ConfigValue := .bool true
  save_temp_files : ConfigValue := .bool false
  temp_dir : ConfigValue := .str "./temp"
deriving DecidableEq

/-- The declared dataclass fields of `HwpConfig`, in declaration order. -/
def hwpConfigFieldNames : List String :=
  ["auto_connect", "visible", "register_security_module", "security_module_path",
   "batch_size", "timeout", "retry_count", "retry_delay",
   "default_font", "default_font_size", "default_paper_size", "default_orientation",
   "default_margins", "table_max_rows", "table_max_cols", "table_default_style",
   "allowed_image_formats", "image_embed_mode", "image_max_width", "image_max_height",
   "pdf_default_quality", "pdf_include_fonts", "pdf_include_comments",
   "log_level", "log_file", "log_max_size", "log_backup_count",
   "debug_mode", "show_hwp_errors", "save_temp_files", "temp_dir"]

/-- `setattr`: overwrite the named field; a name that is not a field leaves
the record unchanged (callers guard with the field-name list). -/
def setField (c : HwpConfig) (key : String) (v : ConfigValue) : HwpConfig :=
  if key = "auto_connect" then { c with auto_connect := v }
  else if key = "visible" then { c with visible := v }
  else if key = "register_security_module" then { c with register_security_module := v }
  else if key = "security_module_path" then { c with security_module_path := v }
  else if key = "batch_size" then { c with batch_size := v }
  else if key = "timeout" then { c with timeout := v }
  else if key = "retry_count" then { c with retry_count := v }
  else if key = "retry_delay" then { c with retry_delay := v }
  else if key = "default_font" then { c with default_font := v }
  else if key = "default_font_size" then { c with default_font_size := v }
  else if key = "default_paper_size" then { c with default_paper_size := v }
  else if key = "default_orientation" then { c with default_orientation := v }
  else if key = "default_margins" then { c with default_margins := v }
  else if key = "table_max_rows" then { c with table_max_rows := v }
  else if key = "table_max_cols" then { c with table_max_cols := v }
  else if key = "table_default_style" then { c with table_default_style := v }
  else if key = "allowed_image_formats" then { c with allowed_image_formats := v }
  else if key = "image_embed_mode" then { c with image_embed_mode := v }
  else if key = "image_max_width" then { c with image_max_width := v }
  else if key = "image_max_height" then { c with image_max_height := v }
  else if key = "pdf_default_quality" then { c with pdf_default_quality := v }
  else if key = "pdf_include_fonts" then { c with pdf_include_fonts := v }
  else if key = "pdf_include_comments" then { c with pdf_include_comments := v }
  else if key = "log_level" then { c with log_level := v }
  else if key = "log_file" then { c with log_file := v }
  else if key = "log_max_size" then { c with log_max_size := v }
  else if key = "log_backup_count" then { c with log_backup_count := v }
  else if key = "debug_mode" then { c with debug_mode := v }
  else if key = "show_hwp_errors" then { c with show_hwp_errors := v }
  else if key = "save_temp_files" then { c with save_temp_files := v }
  else if key = "temp_dir" then { c with temp_dir := v }
  else c

/-- `HwpConfig.from_dict(data)` = `cls(**data)`: Python's dataclass
`__init__` rejects any keyword that is not a declared field with a
`TypeError`; otherwise each supplied field is applied over the defaults.
The input dict is embedded as an association list with distinct keys. -/
def HwpConfig.from_dict (data : List (String × ConfigValue)) : Except String HwpConfig :=
  match data.find? (fun p => !(hwpConfigFieldNames.contains p.1)) with
  | some p => Except.error ("TypeError: __init__() got an unexpected keyword argument '" ++ p.1 ++ "'")
  | none => Except.ok (data.foldl (fun c p => setField c p.1 p.2) {})

/-- `ConfigManager.update(**kwargs)`: for each keyword, `setattr` only when
`hasattr` holds; unknown names are silently skipped. -/
def ConfigManager.update (c : HwpConfig) (kwargs : List (String × ConfigValue)) : HwpConfig :=
  kwargs.foldl
    (fun c p => if hwpConfigFieldNames.contains p.1 then setField c p.1 p.2 else c) c

/-! ## Word-Document server find-and-replace (cross_platform_mcp_server.py)

Python:
```
for paragraph in doc.paragraphs:
    if find_text in paragraph.text:
        paragraph.text = paragraph.text.replace(find_text, replace_text)
        count += 1
for table in doc.tables:
    for row in table.rows:
        for cell in row.cells:
            if find_text in cell.text:
                cell.text = cell.text.replace(find_text, replace_text)
                count += 1
return f"Replaced {count} occurrences"
```
`str.replace` / `in` are embedded on character lists.  `pyReplaceAux` uses
fuel (`fuel = length of the subject` suffices for a nonempty pattern,
since each step consumes at least one character). -/

def pyContainsAux (pat : List Char) : List Char → Bool
  | [] => pat.isPrefixOf ([] : List Char)
  | c :: rest => pat.isPrefixOf (c :: rest) || pyContainsAux pat rest

/-- Python's `pat in s` on strings: substring containment. -/
def pyContains (s pat : String) : Bool :=
  pyContainsAux pat.data s.data

def pyReplaceAux (pat rep : List Char) : Nat → List Char → List Char
  | _, [] => []
  | 0, l => l
  | fuel + 1, c :: rest =>
      if pat.isPrefixOf (c :: rest) then
        rep ++ pyReplaceAux pat rep fuel ((c :: rest).drop pat.length)
      else
        c :: pyReplaceAux pat rep fuel rest

/-- Python's `s.replace(pat, rep)`: leftmost non-overlapping replacement.
The empty pattern inserts `rep` before every character and at the end,
exactly as Python does. -/
def pyReplace (s pat rep : String) : String :=
  match pat.data with
  | [] => ⟨rep.data ++ s.data.foldr (fun c acc => c :: (rep.data ++ acc)) []⟩
  | _ :: _ => ⟨pyReplaceAux pat.data rep.data s.data.length s.data⟩

def pyCountAux (pat : List Char) : Nat → List Char → Nat
  | _, [] => 0
  | 0, _ => 0
  | fuel + 1, c :: rest =>
      if pat.isPrefixOf (c :: rest) then
        1 + pyCountAux pat fuel ((c :: rest).drop pat.length)
      else
        pyCountAux pat fuel rest

/-- Number of (leftmost, non-overlapping) occurrences of `pat` in `s` —
the number of substrings that `s.replace(pat, rep)` replaces; this is the
spec-side notion "occurrences replaced". -/
def countOccurrences (s pat : String) : Nat :=
  match pat.data with
  | [] => s.data.length + 1
  | _ :: _ => pyCountAux pat.data s.data.length s.data

/-- A held Word document: paragraph texts and tables (rows of cell texts). -/
structure DocxDocument where
  paragraphs : List String
  tables : List (List (List String))
deriving DecidableEq

/-- One pass of the find-and-replace loop over a list of text holders:
each text containing `f` is replaced and contributes 1 to `count`. -/
def replaceTexts (f r : String) : List String → List String × Nat
  | [] => ([], 0)
  | t :: rest =>
      let tail := replaceTexts f r rest
      if pyContains t f then (pyReplace t f r :: tail.1, tail.2 + 1)
      else (t :: tail.1, tail.2)

def replaceTable (f r : String) : List (List String) → List (List String) × Nat
  | [] => ([], 0)
  | rowCells :: rest =>
      let hd := replaceTexts f r rowCells
      let tail := replaceTable f r rest
      (hd.1 :: tail.1, hd.2 + tail.2)

def replaceTables (f r : String) : List (List (List String)) → List (List (List String)) × Nat
  | [] => ([], 0)
  | tb :: rest =>
      let hd := replaceTable f r tb
      let tail := replaceTables f r rest
      (hd.1 :: tail.1, hd.2 + tail.2)

/-- `find_and_replace(find_text, replace_text)` of the Word-Document
server, acting on the held document; returns the new document and the
reported `count`. -/
def find_and_replace (find_text replace_text : String) (doc : DocxDocument) :
    DocxDocument × Nat :=
  let ps := replaceTexts find_text replace_text doc.paragraphs
  let ts := replaceTables find_text replace_text doc.tables
  (⟨ps.1, ts.1⟩, ps.2 + ts.2)

/-- Spec-side count for the amended claim: the number of paragraphs plus
table cells that contain the search text at least once. -/
def countContainingTexts (f : String) (doc : DocxDocument) : Nat :=
  doc.paragraphs.countP (fun t => pyContains t f)
    + (doc.tables.map (fun tb =>
        (tb.map (fun row => row.countP (fun t => pyContains t f))).sum)).sum

/-! ## Batch processor (hwp_batch_processor.py)

State of one `HwpBatchProcessor` together with its environment: the open
document (abstracted as the list of edits applied to it), the
per-processor `_transaction_stack` (each entry's consulted field is its
savepoint temp-file name, here a `Nat`), the savepoint temp files on disk
(name ↦ saved document), a fresh-name source for `tempfile.mktemp`, and
the `_in_transaction` flag.  Controller operations act on the document
only.  A raised Python exception is an `Exc`; `str(e)` is `Exc.message`. -/

inductive Exc where
  | hwpOperationError (msg : String)
  | hwpBatchError (msg : String)
  | osError (msg : String)
deriving DecidableEq

def Exc.message : Exc → String
  | .hwpOperationError m => m
  | .hwpBatchError m => m
  | .osError m => m

structure BatchState where
  doc : List String
  transaction_stack : List Nat
  files : List (Nat × List String)
  nextTemp : Nat
  in_transaction : Bool
deriving DecidableEq

/-- `_create_savepoint`: `tempfile.mktemp` then
`hwp_controller.save_document(temp_file)` — a fresh name is drawn and the
current document content is written to it. -/
def _create_savepoint (s : BatchState) : Nat × BatchState :=
  let temp_file := s.nextTemp
  (temp_file,
   { s with files := s.files ++ [(temp_file, s.doc)], nextTemp := s.nextTemp + 1 })

/-- `os.remove`: delete the named file, raising `FileNotFoundError` when
it does not exist. -/
def osRemove (name : Nat) (files : List (Nat × List String)) :
    Except Exc (List (Nat × List String)) :=
  if files.any (fun p => p.1 == name) then
    Except.ok (files.filter (fun p => p.1 != name))
  else
    Except.error (.osError "FileNotFoundError")

/-- `_rollback_to_savepoint`: when the savepoint file exists, reopen the
document from it and delete it; otherwise do nothing. -/
def _rollback_to_savepoint (savepoint_file : Nat) (s : BatchState) : BatchState :=
  match s.files.find? (fun p => p.1 == savepoint_file) with
  | some pr => { s with doc := pr.2, files := s.files.filter (fun p => p.1 != savepoint_file) }
  | none => s

/-- The `except Exception` branch of `transaction`: roll back to the
top-of-stack savepoint (when save_point is set and the stack is
non-empty), pop the stack, and raise `HwpBatchError` wrapping `str(e)`. -/
def transactionExcept {α : Type} (e : Exc) (save_point : Bool) (s : BatchState) :
    BatchState × Except Exc α :=
  let s' :=
    if save_point ∧ ¬ s.transaction_stack.isEmpty then
      match s.transaction_stack.getLast? with
      | some sp =>
          { _rollback_to_savepoint sp s with
              transaction_stack := s.transaction_stack.dropLast }
      | none => s
    else s
  (s', Except.error (.hwpBatchError ("트랜잭션 실패: " ++ e.message)))

/-- The `transaction(save_point)` context manager applied to a scope body.
The body receives the state inside the scope and returns the state at the
end of the scope together with `Except.ok` (normal exit) or
`Except.error` (a fault raised inside the scope). -/
def transaction {α : Type} (save_point : Bool)
    (body : BatchState → BatchState × Except Exc α) (s0 : BatchState) :
    BatchState × Except Exc α :=
  let s1 := { s0 with in_transaction := true }
  let entered :=
    if save_point then
      let created := _create_savepoint s1
      (some created.1,
       { created.2 with transaction_stack := created.2.transaction_stack ++ [created.1] })
    else (none, s1)
  let ran := body entered.2
  let finished :=
    match ran.2 with
    | Except.ok a =>
        match save_point, entered.1 with
        | true, some temp_file =>
            (match osRemove temp_file ran.1.files with
             | Except.ok fs =>
                 let sA := { ran.1 with files := fs }
                 let sB :=
                   if sA.transaction_stack.isEmpty then sA
                   else { sA with transaction_stack := sA.transaction_stack.dropLast }
                 (sB, Except.ok a)
             | Except.error e => transactionExcept e save_point ran.1)
        | _, _ =>
            let sB :=
              if ran.1.transaction_stack.isEmpty then ran.1
              else { ran.1 with transaction_stack := ran.1.transaction_stack.dropLast }
            (sB, Except.ok a)
    | Except.error e => transactionExcept e save_point ran.1
  ({ finished.1 with in_transaction := false }, finished.2)

/-- `_dummy_context`: the no-transaction context manager — run the body
unchanged. -/
def _dummy_context {α : Type} (body : BatchState → BatchState × Except Exc α)
    (s : BatchState) : BatchState × Except Exc α :=
  body s

/-- The operations `execute_batch` can dispatch (`action_map`), plus the
unknown-action case. -/
inductive HwpOperation where
  | insert_text (text : String)
  | insert_table (rows cols : Nat)
  | insert_image (path : String)
  | insert_paragraph
  | save_document (path : String)
  | fill_table_cell (row col : Nat) (text : String)
  | set_font_style (font : String)
  | unknown_action (name : String)
deriving DecidableEq

def HwpOperation.action : HwpOperation → String
  | .insert_text _ => "insert_text"
  | .insert_table _ _ => "insert_table"
  | .insert_image _ => "insert_image"
  | .insert_paragraph => "insert_paragraph"
  | .save_document _ => "save_document"
  | .fill_table_cell _ _ _ => "fill_table_cell"
  | .set_font_style _ => "set_font_style"
  | .unknown_action n => n

/-- The behaviour of the wrapped HWP controller: each mapped operation
transforms the document and either returns normally or raises. -/
def HwpEnv : Type := HwpOperation → List String → List String × Option Exc

/-- `_execute_operation`: unknown actions raise `HwpOperationError`;
mapped actions are delegated to the controller. -/
def _execute_operation (env : HwpEnv) (op : HwpOperation) (doc : List String) :
    List String × Option Exc :=
  match op with
  | .unknown_action n => (doc, some (.hwpOperationError ("알 수 없는 작업: " ++ n)))
  | _ => env op doc

structure OperationRecord where
  index : Nat
  operation : String
  success : Bool
  error : Option String
deriving DecidableEq

structure BatchResults where
  success : Bool
  executed : Nat
  failed : Nat
  results : List OperationRecord
  errors : List String
deriving DecidableEq

def BatchResults.init : BatchResults :=
  { success := true, executed := 0, failed := 0, results := [], errors := [] }

/-- The dispatch loop of `execute_batch`: every per-operation exception is
caught here; under `stop_on_error` the loop breaks after recording the
failure (setting `success := false`, later overwritten). -/
def executeBatchLoop (env : HwpEnv) (stop_on_error : Bool) :
    List HwpOperation → Nat → BatchResults → List String → BatchResults × List String
  | [], _, acc, doc => (acc, doc)
  | op :: rest, idx, acc, doc =>
      let r := _execute_operation env op doc
      match r.2 with
      | none =>
          executeBatchLoop env stop_on_error rest (idx + 1)
            { acc with
                executed := acc.executed + 1,
                results := acc.results ++ [⟨idx, op.action, true, none⟩] } r.1
      | some e =>
          let error_msg := "작업 " ++ toString idx ++ " 실패: " ++ op.action ++ " - " ++ e.message
          let acc' :=
            { acc with
                failed := acc.failed + 1,
                results := acc.results ++ [⟨idx, op.action, false, some e.message⟩],
                errors := acc.errors ++ [error_msg] }
          if stop_on_error then ({ acc' with success := false }, r.1)
          else executeBatchLoop env stop_on_error rest (idx + 1) acc' r.1

/-- The statement after the `with` block:
`results["success"] = results["failed"] == 0; return results` — it
overwrites whatever `success` the loop left (a fault inside the context
manager instead propagates). -/
def finalizeResults (ran : BatchState × Except Exc BatchResults) :
    BatchState × Except Exc BatchResults :=
  match ran with
  | (s', Except.ok results) =>
      (s', Except.ok { results with success := results.failed == 0 })
  | (s', Except.error e) => (s', Except.error e)

/-- `execute_batch(operations, use_transaction, stop_on_error)`.  The
dispatch loop runs inside `transaction()` (or the dummy context); after
the `with` block, `success` is overwritten with `failed == 0`. -/
def execute_batch (env : HwpEnv) (operations : List HwpOperation)
    (use_transaction stop_on_error : Bool) (s : BatchState) :
    BatchState × Except Exc BatchResults :=
  let body := fun (st : BatchState) =>
    ({ st with doc := (executeBatchLoop env stop_on_error operations 0 .init st.doc).2 },
     Except.ok (executeBatchLoop env stop_on_error operations 0 .init st.doc).1)
  finalizeResults (if use_transaction then transaction true body s else _dummy_context body s)

/-! Concrete batch scenario used by the explicit claims: a controller for
which text insertion succeeds (appending to the document) and table
insertion raises. -/

def scenarioEnv : HwpEnv := fun op doc =>
  match op with
  | .insert_text t => (doc ++ [t], none)
  | .insert_table _ _ => (doc, some (.hwpOperationError "표 삽입 실패"))
  | _ => (doc, none)

def scenarioOps : List HwpOperation :=
  [.insert_text "Hello", .insert_table 3 3, .insert_text "World"]

def initialState : BatchState :=
  { doc := [], transaction_stack := [], files := [], nextTemp := 0, in_transaction := false }

/-! Nested-transaction scenario: a savepoint transaction whose body first
runs a `transaction(save_point=False)` scope to completion and then
raises. -/

/-- Body of the inner no-savepoint transaction: one successful document
operation. -/
def innerBody : BatchState → BatchState × Except Exc Unit := fun st =>
  ({ st with doc := st.doc ++ ["inner"] }, Except.ok ())

/-- Body of the enclosing savepoint transaction: commit the nested
no-savepoint transaction, perform one more document operation, then
raise. -/
def outerBody : BatchState → BatchState × Except Exc Unit := fun st =>
  let ran := transaction false innerBody st
  match ran.2 with
  | Except.ok _ =>
      ({ ran.1 with doc := ran.1.doc ++ ["after"] },
       Except.error (.hwpOperationError "외부 작업 실패"))
  | Except.error e => (ran.1, Except.error e)

/-! ## Helper lemmas -/

theorem replaceTexts_eq (f r : String) (l : List String) :
    replaceTexts f r l =
      (l.map fun t => if pyContains t f then pyReplace t f r else t,
       l.countP fun t => pyContains t f) := by
  induction l with
  | nil => rfl
  | cons t rest ih =>
      simp only [replaceTexts, ih, List.map_cons, List.countP_cons]
      cases h : pyContains t f <;> simp [h]

theorem replaceTable_eq (f r : String) (tb : List (List String)) :
    replaceTable f r tb =
      (tb.map fun row => row.map fun t => if pyContains t f then pyReplace t f r else t,
       (tb.map fun row => row.countP fun t => pyContains t f).sum) := by
  induction tb with
  | nil => rfl
  | cons row rest ih => simp [replaceTable, ih, replaceTexts_eq]

theorem replaceTables_eq (f r : String) (ts : List (List (List String))) :
    replaceTables f r ts =
      (ts.map fun tb => tb.map fun row => row.map fun t =>
          if pyContains t f then pyReplace t f r else t,
       (ts.map fun tb => (tb.map fun row =>
          row.countP fun t => pyContains t f).sum).sum) := by
  induction ts with
  | nil => rfl
  | cons tb rest ih => simp [replaceTables, ih, replaceTable_eq]

theorem exceptError_isOk {ε α : Type} (e : ε) : (Except.error e : Except ε α).isOk = false :=
  rfl

theorem exceptOk_isOk {ε α : Type} (a : α) : (Except.ok a : Except ε α).isOk = true :=
  rfl

theorem finalize_success (x : BatchState × Except Exc BatchResults) :
    match (finalizeResults x).2 with
    | Except.ok res => res.success = (res.failed == 0)
    | Except.error _ => True := by
  rcases x with ⟨s', r⟩
  cases r <;> simp [finalizeResults]

/-! ## Claim theorems -/

/-- C4: `split_table_data_for_parallel` yields 4 chunks of 25 for 100 rows
over 4 workers, chunk sizes [25,25,25,22] for 97 rows, and 2 singleton
chunks for 2 rows; but on the empty input the computed `chunk_size` is 0
and `range(0, 0, 0)` raises `ValueError`, contradicting the claim (and
the module's own test `test_split_empty_data`, which expects `[]`).  The
first three parts of the claim hold; the fourth fails as evaluated by the
last conjunct. -/
theorem split_table_data_for_parallel_spec :
    ((split_table_data_for_parallel (List.range 100) 4).map
        fun cs => cs.map List.length) = Except.ok [25, 25, 25, 25]
    ∧ ((split_table_data_for_parallel (List.range 97) 4).map
        fun cs => cs.map List.length) = Except.ok [25, 25, 25, 22]
    ∧ split_table_data_for_parallel [0, 1] 4 = Except.ok [[0], [1]]
    ∧ split_table_data_for_parallel ([] : List Nat) 4
        = Except.error "ValueError: range() arg 3 must not be zero" :=
  ⟨rfl, rfl, rfl, rfl⟩

/-- C6: table-coordinate validation against the defaults 100×100 rejects
(0,1), (1,0) and (101,1) and accepts (50,50) and (100,100); with explicit
maxima 10×10 it rejects (11,5) and accepts (5,5). -/
theorem validate_table_coordinates_spec :
    (validate_table_coordinates 0 1).isOk = false
    ∧ (validate_table_coordinates 1 0).isOk = false
    ∧ (validate_table_coordinates 101 1).isOk = false
    ∧ validate_table_coordinates 50 50 = Except.ok ()
    ∧ validate_table_coordinates 100 100 = Except.ok ()
    ∧ (validate_table_coordinates 11 5 10 10).isOk = false
    ∧ validate_table_coordinates 5 5 10 10 = Except.ok () := by
  refine ⟨rfl, rfl, rfl, ?_, ?_, rfl, ?_⟩ <;> rfl

/-- C7: the optimized relative cell mover issues zero commands when the
target equals the tracked position, performs the first-cell reset plus 2
down-steps and 3 right-steps from (1,1) to (3,4), and 2 up-steps and 2
left-steps from (4,5) to (2,3). -/
theorem move_to_table_cell_optimized_spec :
    move_to_table_cell_optimized 2 3 2 3 = ([], true)
    ∧ move_to_table_cell_optimized 3 4 1 1
        = (["TableColBegin", "TableRowBegin", "TableLowerCell", "TableLowerCell",
            "TableRightCell", "TableRightCell", "TableRightCell"], true)
    ∧ move_to_table_cell_optimized 2 3 4 5
        = (["TableUpperCell", "TableUpperCell", "TableLeftCell", "TableLeftCell"], true) := by
  refine ⟨rfl, ?_, ?_⟩ <;> rfl

/-- C10: the names `TABLE_MAX_ROWS` and `TABLE_MAX_COLS`, referenced by
the default-argument expressions of `validate_table_coordinates` in
error_handling_guide.py, are not bound by any of the module's imports or
module-level definitions, so importing the module raises `NameError`. -/
theorem error_handling_guide_name_resolution :
    error_handling_guide_module_names.contains "TABLE_MAX_ROWS" = false
    ∧ error_handling_guide_module_names.contains "TABLE_MAX_COLS" = false
    ∧ error_handling_guide_import
        = Except.error "NameError: name 'TABLE_MAX_ROWS' is not defined" := by
  refine ⟨?_, ?_, ?_⟩ <;> rfl

/-- C3 counterexample: a mapping containing the unknown key
`unknown_field` is rejected by `HwpConfig.from_dict` with a `TypeError`
(Python dataclass `cls(**data)`), not silently ignored as the claim
states. -/
theorem from_dict_rejects_unknown_key :
    HwpConfig.from_dict [("debug_mode", ConfigValue.bool true), ("unknown_field", ConfigValue.int 1)]
      = Except.error "TypeError: __init__() got an unexpected keyword argument 'unknown_field'" :=
  rfl

/-- C3 (amended): `ConfigManager.update` silently ignores unknown keyword
names and applies known fields, whereas `HwpConfig.from_dict` (hence
`HwpConfig.load`) succeeds exactly when every supplied key is a declared
field — unknown keys make it raise instead of being ignored. -/
theorem config_unknown_key_handling :
    (∀ (c : HwpConfig) (key : String) (v : ConfigValue),
        hwpConfigFieldNames.contains key = false → ConfigManager.update c [(key, v)] = c)
    ∧ (∀ (c : HwpConfig) (key : String) (v : ConfigValue),
        hwpConfigFieldNames.contains key = true →
          ConfigManager.update c [(key, v)] = setField c key v)
    ∧ (∀ data : List (String × ConfigValue),
        (HwpConfig.from_dict data).isOk
          = data.all fun p => hwpConfigFieldNames.contains p.1) := by
  refine ⟨?_, ?_, ?_⟩
  · intro c key v h
    have h' : ¬ (hwpConfigFieldNames.contains key = true) := by
      rw [h]
      simp
    show (if hwpConfigFieldNames.contains key then setField c key v else c) = c
    rw [if_neg h']
  · intro c key v h
    show (if hwpConfigFieldNames.contains key then setField c key v else c)
      = setField c key v
    rw [if_pos h]
  · intro data
    induction data with
    | nil => rfl
    | cons p rest ih =>
        cases h : hwpConfigFieldNames.contains p.1 with
        | false =>
            have hfind : List.find? (fun q => !(hwpConfigFieldNames.contains q.1)) (p :: rest)
                = some p := by
              refine List.find?_cons_of_pos _ ?_
              show (!(hwpConfigFieldNames.contains p.1)) = true
              rw [h]
              rfl
            simp only [HwpConfig.from_dict, hfind, exceptError_isOk, List.all_cons, h,
              Bool.false_and]
        | true =>
            have hfind : List.find? (fun q => !(hwpConfigFieldNames.contains q.1)) (p :: rest)
                = List.find? (fun q => !(hwpConfigFieldNames.contains q.1)) rest := by
              refine List.find?_cons_of_neg _ ?_
              show ¬ ((!(hwpConfigFieldNames.contains p.1)) = true)
              rw [h]
              simp
            simp only [HwpConfig.from_dict] at ih ⊢
            rw [hfind, List.all_cons, h, Bool.true_and]
            cases hf : List.find? (fun q => !(hwpConfigFieldNames.contains q.1)) rest with
            | none =>
                rw [hf] at ih
                exact ih
            | some q =>
                rw [hf] at ih
                exact ih

theorem config_unknown_key_handling_witness :
    hwpConfigFieldNames.contains "unknown_field" = false
    ∧ ConfigManager.update {} [("unknown_field", ConfigValue.int 1)] = {}
    ∧ hwpConfigFieldNames.contains "debug_mode" = true
    ∧ ConfigManager.update {} [("debug_mode", ConfigValue.bool true)]
        = setField {} "debug_mode" (ConfigValue.bool true) :=
  ⟨rfl, config_unknown_key_handling.1 {} "unknown_field" (ConfigValue.int 1) rfl,
   rfl, config_unknown_key_handling.2.1 {} "debug_mode" (ConfigValue.bool true) rfl⟩

/-- C5 counterexample: on a document whose single paragraph is "aa",
`find_and_replace("a", "b")` replaces both occurrences but reports a count
of 1 — one per paragraph containing the text — so the reported count does
not equal the number of occurrences replaced. -/
theorem find_and_replace_count_counterexample :
    (find_and_replace "a" "b" ⟨["aa"], []⟩).1 = ⟨["bb"], []⟩
    ∧ (find_and_replace "a" "b" ⟨["aa"], []⟩).2 = 1
    ∧ countOccurrences "aa" "a" = 2
    ∧ (find_and_replace "a" "b" ⟨["aa"], []⟩).2 ≠ countOccurrences "aa" "a" := by
  refine ⟨rfl, rfl, rfl, ?_⟩
  decide

/-- C5 (amended): `find_and_replace` performs literal (leftmost,
non-overlapping) substring replacement in every paragraph and every table
cell, and the reported count is the number of paragraphs plus table cells
that contained the search text — each contributes 1 regardless of how
many occurrences it held. -/
theorem find_and_replace_amended (f r : String) (doc : DocxDocument) :
    (find_and_replace f r doc).2 = countContainingTexts f doc
    ∧ (find_and_replace f r doc).1.paragraphs
        = doc.paragraphs.map (fun t => if pyContains t f then pyReplace t f r else t)
    ∧ (find_and_replace f r doc).1.tables
        = doc.tables.map (fun tb => tb.map fun row => row.map fun t =>
            if pyContains t f then pyReplace t f r else t) := by
  refine ⟨?_, ?_, ?_⟩ <;>
    simp [find_and_replace, replaceTexts_eq, replaceTables_eq, countContainingTexts]

/-- C1: on the scenario batch [insert_text "Hello", insert_table 3 3
(raises), insert_text "World"], `execute_batch` with `stop_on_error=true`
reports `executed=1, failed=1` with exactly 2 per-operation records (the
third operation is never attempted), and with `stop_on_error=false`
reports `executed=2, failed=1` with 3 records; and for every run that
returns a result, the overall `success` flag equals `failed == 0`. -/
theorem execute_batch_counts_and_success :
    ((execute_batch scenarioEnv scenarioOps true true initialState).2.map
        fun res => (res.executed, res.failed, res.results.length)) = Except.ok (1, 1, 2)
    ∧ ((execute_batch scenarioEnv scenarioOps true false initialState).2.map
        fun res => (res.executed, res.failed, res.results.length)) = Except.ok (2, 1, 3)
    ∧ ∀ (env : HwpEnv) (ops : List HwpOperation) (ut se : Bool) (s : BatchState),
        match (execute_batch env ops ut se s).2 with
        | Except.ok res => res.success = (res.failed == 0)
        | Except.error _ => True := by
  refine ⟨rfl, rfl, ?_⟩
  intro env ops ut se s
  exact finalize_success _

/-- C2: a savepoint transaction entered with an empty transaction stack
and no savepoint files on disk commits on normal exit — the savepoint
file is deleted (no files remain) and the stack is left empty — and rolls
back on a fault: the document is reopened from the top-of-stack savepoint
file (restoring the entry document), that file is deleted, the stack
entry is popped, and a batch fault wrapping the original cause's message
is raised.  The scope body performs document operations only. -/
theorem transaction_commit_and_rollback {α : Type} (f : List String → List String)
    (r : List String → Except Exc α) (d : List String) (nt : Nat) (it : Bool) :
    transaction true (fun st => ({ st with doc := f st.doc }, r st.doc))
        ⟨d, [], [], nt, it⟩
      = match r d with
        | Except.ok a => (⟨f d, [], [], nt + 1, false⟩, Except.ok a)
        | Except.error e =>
            (⟨d, [], [], nt + 1, false⟩,
             Except.error (.hwpBatchError ("트랜잭션 실패: " ++ e.message))) := by
  cases hr : r d with
  | ok a =>
      simp [transaction, _create_savepoint, osRemove, hr]
  | error e =>
      simp [transaction, transactionExcept, _create_savepoint, _rollback_to_savepoint, hr]

/-- C8: `execute_batch` with a transaction never rolls back because of a
failing operation — per-operation faults are caught inside the dispatch
loop, so the transaction body always exits normally: the savepoint file
is created and then deleted by the commit, the transaction stack returns
to its entry value, the document keeps exactly what the loop produced,
and the call returns a result (no batch fault).  On the scenario batch
with `stop_on_error=true` the failed table insertion leaves the earlier
"Hello" insertion in place, with `failed=1` and `success=false`. -/
theorem execute_batch_no_rollback :
    (∀ (env : HwpEnv) (ops : List HwpOperation) (se : Bool) (d : List String)
        (stk : List Nat) (nt : Nat) (it : Bool),
        execute_batch env ops true se ⟨d, stk, [], nt, it⟩
          = (⟨(executeBatchLoop env se ops 0 .init d).2, stk, [], nt + 1, false⟩,
             Except.ok { (executeBatchLoop env se ops 0 .init d).1 with
                          success := ((executeBatchLoop env se ops 0 .init d).1.failed == 0) }))
    ∧ (execute_batch scenarioEnv scenarioOps true true initialState).1
        = { initialState with doc := ["Hello"], nextTemp := 1 }
    ∧ ((execute_batch scenarioEnv scenarioOps true true initialState).2.map
        fun res => (res.failed, res.success)) = Except.ok (1, false) := by
  refine ⟨?_, rfl, rfl⟩
  intro env ops se d stk nt it
  have hne : (stk ++ [nt]).isEmpty = false := by cases stk <;> rfl
  simp [execute_batch, transaction, _create_savepoint, osRemove, finalizeResults, hne,
    List.dropLast_concat]

/-- C9: a `transaction(save_point=False)` scope pushes nothing but still
pops the top of the transaction stack when it commits (the final stack is
always `dropLast` of the entry stack); consequently, in the nested
scenario where a no-savepoint transaction commits inside a savepoint
transaction whose body then faults, the enclosing scope finds an empty
stack, skips the rollback entirely — the document keeps the faulted
body's edits and the enclosing savepoint file is left on disk — and only
the wrapping batch fault is raised. -/
theorem no_savepoint_transaction_pops_enclosing_entry :
    (∀ (α : Type) (f : List String → List String) (g : List String → α) (s : BatchState),
        transaction false (fun st => ({ st with doc := f st.doc }, Except.ok (g st.doc))) s
          = ({ s with
                doc := f s.doc,
                transaction_stack := s.transaction_stack.dropLast,
                in_transaction := false }, Except.ok (g s.doc)))
    ∧ transaction true outerBody initialState
        = ({ doc := ["inner", "after"], transaction_stack := [], files := [(0, [])],
             nextTemp := 1, in_transaction := false },
           Except.error (.hwpBatchError "트랜잭션 실패: 외부 작업 실패")) := by
  constructor
  · intro α f g s
    obtain ⟨d, stk, fl, nt, it⟩ := s
    cases stk with
    | nil => simp [transaction]
    | cons a l => simp [transaction]
  · rfl

end HwpMcp
